import Mathlib

/- Shallow embedding of the three-layer serial control stack of this
   repository: link layer (serial_link.py), motion queue (motion_queue.py),
   watchdog (watchdog.py) and orchestrator (esp32_comm.py).

   Python `threading.Lock` is non-reentrant: an `acquire` performed by a call
   context that already holds the lock blocks forever.  `withLock` models a
   `with self.lock:` block: `held` says whether the current call context
   already holds this object's lock.  If so, the acquire blocks and the body
   never runs; the result is `none` and the observable state is the state at
   the moment of blocking.  Every method below threads a `held` flag; external
   calls pass `held = false`, internal calls made while the lock is held pass
   `held = true`. -/

def withLock {σ α : Type} (held : Bool) (s : σ) (body : σ → σ × Option α) :
    σ × Option α :=
  if held then (s, none) else body s

/-- State of `MotionQueue` (src/C2C/hardware/motion_queue.py).  `tx` is the
trace of frames the queue passes to `self.serial.send`, newest last. -/
structure MQState where
  queue : List String
  max_size : Nat
  busy : Bool
  current_command : Option String
  command_start_time : ℚ
  commands_sent : Nat
  commands_completed : Nat
  commands_dropped : Nat
  tx : List String
deriving DecidableEq

/-- Composite value returned by `MotionQueue.get_stats`. -/
structure MQStats where
  queued : Nat
  busy : Bool
  sent : Nat
  completed : Nat
  dropped : Nat
  current : Option String
deriving DecidableEq

namespace MotionQueue

/-- `MotionQueue.__init__`: empty queue, not busy, no current command,
all counters zero. -/
def initState (maxSize : Nat) : MQState :=
  ⟨[], maxSize, false, none, 0, 0, 0, 0, []⟩

/-- `MotionQueue.add` (lines 83-100): under the lock, if the queue is full
increment the dropped counter and return `False`; otherwise append to the
tail and return `True`. -/
def add (held : Bool) (cmd : String) (s : MQState) : MQState × Option Bool :=
  withLock held s fun s =>
    if s.queue.length ≥ s.max_size then
      ({ s with commands_dropped := s.commands_dropped + 1 }, some false)
    else
      ({ s with queue := s.queue ++ [cmd] }, some true)

/-- `MotionQueue.update` (lines 102-130): under the lock, return if busy or
empty; otherwise pop the head and call `self.serial.send` (its result is the
oracle `sendOk`, and the frame is recorded on `tx`).  On success set busy,
remember the command and its start time, bump the sent counter; on failure
push the command back at the front. -/
def update (held : Bool) (sendOk : Bool) (now : ℚ) (s : MQState) :
    MQState × Option Unit :=
  withLock held s fun s =>
    if s.busy then (s, some ())
    else
      match s.queue with
      | [] => (s, some ())
      | c :: rest =>
          if sendOk then
            ({ s with queue := rest, tx := s.tx ++ [c], busy := true,
                      current_command := some c, command_start_time := now,
                      commands_sent := s.commands_sent + 1 }, some ())
          else
            ({ s with queue := c :: rest, tx := s.tx ++ [c] }, some ())

/-- `MotionQueue.on_done` (lines 132-147): under the lock, warn-and-return if
not busy; otherwise clear busy and the current command and bump the completed
counter. -/
def on_done (held : Bool) (s : MQState) : MQState × Option Unit :=
  withLock held s fun s =>
    if s.busy then
      ({ s with busy := false, current_command := none,
                commands_completed := s.commands_completed + 1 }, some ())
    else (s, some ())

/-- `MotionQueue.clear` (lines 149-160): under the lock, drop every queued
command. -/
def clear (held : Bool) (s : MQState) : MQState × Option Unit :=
  withLock held s fun s => ({ s with queue := [] }, some ())

/-- `MotionQueue.emergency_stop` (lines 162-179): under the lock, call
`self.clear()` — which tries to re-acquire the same non-reentrant lock —
then send `"$STOP$"` and reset `busy`/`current_command`.  The nested acquire
inside `clear` blocks, so the send and the resets are never reached. -/
def emergency_stop (held : Bool) (s : MQState) : MQState × Option Unit :=
  withLock held s fun s =>
    match clear true s with
    | (s', none) => (s', none)
    | (s', some _) =>
        ({ s' with tx := s'.tx ++ ["$STOP$"], busy := false,
                   current_command := none }, some ())

/-- `MotionQueue.get_stats` (lines 199-213): reads the composite state with
no `with self.lock` in its body, so it completes whether or not the lock is
held and never touches the lock. -/
def get_stats (held : Bool) (s : MQState) : MQState × Option MQStats :=
  (s, some ⟨s.queue.length, s.busy, s.commands_sent, s.commands_completed,
            s.commands_dropped, s.current_command⟩)

/-- The QueueState invariant of the spec: `current != None` iff `busy`. -/
def inv (s : MQState) : Prop :=
  s.busy = true ↔ s.current_command.isSome = true

instance (s : MQState) : Decidable (inv s) := by
  unfold inv; infer_instance

/-- External operations on a `MotionQueue` (called with the lock free). -/
inductive Op where
  | add (cmd : String)
  | update (sendOk : Bool) (now : ℚ)
  | on_done
  | clear
  | emergency_stop

/-- Observable effect of one external call: the state at completion or at a
permanent block, together with whether the call completed. -/
def step : Op → MQState → MQState × Bool
  | .add cmd, s => let r := add false cmd s; (r.1, r.2.isSome)
  | .update ok now, s => let r := update false ok now s; (r.1, r.2.isSome)
  | .on_done, s => let r := on_done false s; (r.1, r.2.isSome)
  | .clear, s => let r := clear false s; (r.1, r.2.isSome)
  | .emergency_stop, s => let r := emergency_stop false s; (r.1, r.2.isSome)

/-- Run a sequence of external calls; a call that blocks forever ends the
run (nothing further executes in that context). -/
def run : List Op → MQState → MQState
  | [], s => s
  | op :: rest, s =>
      let r := step op s
      if r.2 then run rest r.1 else r.1

end MotionQueue

/-- State of `Watchdog` (src/C2C/hardware/watchdog.py). -/
structure WDState where
  timeout : ℚ
  enable_heartbeat : Bool
  last_response : ℚ
  last_heartbeat : ℚ
  enabled : Bool
  fault_detected : Bool
  kick_count : Nat
  timeout_count : Nat
  heartbeat_count : Nat
deriving DecidableEq

/-- Composite value returned by `Watchdog.get_stats`. -/
structure WDStats where
  enabled : Bool
  healthy : Bool
  time_since_response : ℚ
  time_since_heartbeat : ℚ
  kick_count : Nat
  timeout_count : Nat
  heartbeat_count : Nat
  fault_detected : Bool
deriving DecidableEq

/-- Outcome of `Watchdog.check`: returned normally, or raised
`WatchdogTimeout` (the `with` statement releases the lock either way). -/
inductive CheckOutcome where
  | ok
  | raised
deriving DecidableEq

namespace Watchdog

/-- `Watchdog.__init__` at time `now`: healthy, enabled, zero counters. -/
def initState (timeout : ℚ) (enableHeartbeat : Bool) (now : ℚ) : WDState :=
  ⟨timeout, enableHeartbeat, now, now, true, false, 0, 0, 0⟩

/-- `Watchdog.kick` (lines 78-97): under the lock, reset the response timer,
bump the kick counter, and clear a standing fault (running the recovery
callback). -/
def kick (held : Bool) (now : ℚ) (s : WDState) : WDState × Option Unit :=
  withLock held s fun s =>
    let s := { s with last_response := now, kick_count := s.kick_count + 1 }
    if s.fault_detected then ({ s with fault_detected := false }, some ())
    else (s, some ())

/-- `Watchdog.heartbeat` (lines 99-111): under the lock, record the
heartbeat, then call `self.kick()` — which re-acquires the same
non-reentrant lock and blocks, so the embedded kick never runs. -/
def heartbeat (held : Bool) (now : ℚ) (s : WDState) : WDState × Option Unit :=
  withLock held s fun s =>
    let s := { s with last_heartbeat := now,
                      heartbeat_count := s.heartbeat_count + 1 }
    kick true now s

/-- `Watchdog.check` (lines 113-170): return immediately if disabled
(checked outside the lock); otherwise, under the lock, fire the response
timeout if breached and not already faulted (set the flag, bump the counter,
run the timeout callback once, raise); else, when heartbeat monitoring is
on, do the same for the heartbeat timeout `timeout * 1.5`.  The returned
`Nat` counts how many times the timeout callback was invoked. -/
def check (held : Bool) (now : ℚ) (s : WDState) :
    WDState × Option (CheckOutcome × Nat) :=
  if s.enabled then
    withLock held s fun s =>
      let hbPart : WDState → WDState × Option (CheckOutcome × Nat) := fun s =>
        if s.enable_heartbeat then
          if now - s.last_heartbeat > s.timeout * (3 / 2) then
            if s.fault_detected then (s, some (.ok, 0))
            else
              ({ s with fault_detected := true,
                        timeout_count := s.timeout_count + 1 },
               some (.raised, 1))
          else (s, some (.ok, 0))
        else (s, some (.ok, 0))
      if now - s.last_response > s.timeout then
        if s.fault_detected then hbPart s
        else
          ({ s with fault_detected := true,
                    timeout_count := s.timeout_count + 1 },
           some (.raised, 1))
      else hbPart s
  else (s, some (.ok, 0))

/-- `Watchdog.is_healthy` (lines 172-181): under the lock, report whether
the last response is within the timeout window. -/
def is_healthy (held : Bool) (now : ℚ) (s : WDState) : WDState × Option Bool :=
  withLock held s fun s =>
    (s, some (decide (now - s.last_response < s.timeout)))

/-- `Watchdog.enable` (lines 183-188). -/
def enable (held : Bool) (now : ℚ) (s : WDState) : WDState × Option Unit :=
  withLock held s fun s =>
    ({ s with enabled := true, last_response := now }, some ())

/-- `Watchdog.disable` (lines 190-194). -/
def disable (held : Bool) (s : WDState) : WDState × Option Unit :=
  withLock held s fun s => ({ s with enabled := false }, some ())

/-- `Watchdog.reset` (lines 196-207): under the lock, reset both timers and
clear the fault flag. -/
def reset (held : Bool) (now : ℚ) (s : WDState) : WDState × Option Unit :=
  withLock held s fun s =>
    ({ s with last_response := now, last_heartbeat := now,
              fault_detected := false }, some ())

/-- `Watchdog.set_timeout` (lines 229-238). -/
def set_timeout (held : Bool) (t : ℚ) (s : WDState) : WDState × Option Unit :=
  withLock held s fun s => ({ s with timeout := t }, some ())

/-- `Watchdog.get_stats` (lines 209-227): under the lock, build the stats
dict; building it calls `self.is_healthy()`, which re-acquires the same
non-reentrant lock and blocks. -/
def get_stats (held : Bool) (now : ℚ) (s : WDState) : WDState × Option WDStats :=
  withLock held s fun s =>
    match is_healthy true now s with
    | (s', none) => (s', none)
    | (s', some h) =>
        (s', some ⟨s'.enabled, h, now - s'.last_response,
                   now - s'.last_heartbeat, s'.kick_count, s'.timeout_count,
                   s'.heartbeat_count, s'.fault_detected⟩)

/-- External operations on a `Watchdog` (called with the lock free). -/
inductive Op where
  | kick (now : ℚ)
  | heartbeat (now : ℚ)
  | check (now : ℚ)
  | reset (now : ℚ)
  | enable (now : ℚ)
  | disable
  | set_timeout (t : ℚ)
  | is_healthy (now : ℚ)
  | get_stats (now : ℚ)

/-- Observable state after one external call (at completion, at a raise, or
at a permanent block). -/
def step : Op → WDState → WDState
  | .kick now, s => (kick false now s).1
  | .heartbeat now, s => (heartbeat false now s).1
  | .check now, s => (check false now s).1
  | .reset now, s => (reset false now s).1
  | .enable now, s => (enable false now s).1
  | .disable, s => (disable false s).1
  | .set_timeout t, s => (set_timeout false t s).1
  | .is_healthy now, s => (is_healthy false now s).1
  | .get_stats now, s => (get_stats false now s).1

/-- Whether an operation is the `kick` entry point. -/
def Op.isKick : Op → Bool
  | .kick _ => true
  | _ => false

/-- Whether an operation is the `reset` entry point. -/
def Op.isReset : Op → Bool
  | .reset _ => true
  | _ => false

/-- Whether an operation is the `check` entry point. -/
def Op.isCheck : Op → Bool
  | .check _ => true
  | _ => false

end Watchdog

/-- Specific dispatch performed by `ESP32Serial._handle_message` for one
inbound stripped line (the generic `on_message` subscriber fires first for
every line, independent of this classification). -/
inductive LinkEvent where
  | ackMove
  | doneMove
  | ackStop
  | fault (reason : List Char)
  | heartbeat
  | other
deriving DecidableEq

namespace ESP32Serial

/-- Python `msg.split(":", 1)[1]`: the characters after the first `':'`,
or `none` when the string holds no `':'` (Python strings are modelled as
`List Char`). -/
def afterFirstColon : List Char → Option (List Char)
  | [] => none
  | c :: cs => if c = ':' then some cs else afterFirstColon cs

/-- The fault reason computed at src/C2C/hardware/serial_link.py line 248:
`msg.split(":", 1)[1] if ":" in msg else "UNKNOWN"`. -/
def faultReason (msg : List Char) : List Char :=
  match afterFirstColon msg with
  | some rest => rest
  | none => "UNKNOWN".toList

/-- `ESP32Serial._handle_message` (lines 205-260): the `elif` chain that
dispatches one inbound line to a specific subscriber. -/
def handle_message (msg : List Char) : LinkEvent :=
  if msg = "ACK:MOVE".toList then .ackMove
  else if msg = "DONE:MOVE".toList then .doneMove
  else if msg = "ACK:STOP".toList then .ackStop
  else if "FAULT:".toList.isPrefixOf msg then .fault (faultReason msg)
  else if msg = "HB".toList then .heartbeat
  else .other

end ESP32Serial

/-- State of `ESP32Communicator` (src/C2C/hardware/esp32_comm.py) once
connected: `connect()` always installs a `MotionQueue`, so the
`motion_queue is None` fallbacks are unreachable while connected.  A log
entry is `(timestamp, command, sent)`. -/
structure OrchState where
  is_connected : Bool
  mq : MQState
  command_log : List (ℚ × String × Bool)
  max_log_size : Nat
deriving DecidableEq

namespace ESP32Communicator

/-- `ESP32Communicator._log_command` (lines 297-310): append an entry and
trim to the newest `max_log_size` entries. -/
def log_command (now : ℚ) (cmd : String) (sent : Bool) (s : OrchState) :
    OrchState :=
  let log := s.command_log ++ [(now, cmd, sent)]
  let log := if log.length > s.max_log_size then
               log.drop (log.length - s.max_log_size)
             else log
  { s with command_log := log }

/-- `ESP32Communicator.send_command` (lines 193-228).  Not connected: log
the command as not sent and return `False`.  Priority: call
`MotionQueue.emergency_stop()`, then log the command as sent and return
`True` — but the emergency stop blocks forever on its nested lock acquire,
so the log and the return are never reached (`none`).  Otherwise: queue via
`MotionQueue.add`, logging `sent=False` only on success. -/
def send_command (now : ℚ) (cmd : String) (priority : Bool) (s : OrchState) :
    OrchState × Option Bool :=
  if s.is_connected then
    if priority then
      match MotionQueue.emergency_stop false s.mq with
      | (mq', none) => ({ s with mq := mq' }, none)
      | (mq', some _) =>
          (log_command now cmd true { s with mq := mq' }, some true)
    else
      match MotionQueue.add false cmd s.mq with
      | (mq', some true) =>
          (log_command now cmd false { s with mq := mq' }, some true)
      | (mq', some false) => ({ s with mq := mq' }, some false)
      | (mq', none) => ({ s with mq := mq' }, none)
  else (log_command now cmd false s, some false)

/-- The `self.motion_queue.update()` step of one `_update_worker` iteration
(lines 230-255); it is the only place queued commands are actually
transmitted, and it never touches the command log. -/
def update_worker_tick (sendOk : Bool) (now : ℚ) (s : OrchState) : OrchState :=
  { s with mq := (MotionQueue.update false sendOk now s.mq).1 }

end ESP32Communicator

/-- A busy queue holding two pending commands (for C2). -/
def mqC2 : MQState :=
  ⟨["$MOVE1$", "$MOVE2$"], 10, true, some "$MOVE0$", 0, 1, 0, 0, ["$MOVE0$"]⟩

/-- A watchdog with a standing fault (for C3). -/
def wdC3 : WDState := ⟨1, false, 0, 0, true, true, 3, 1, 0⟩

/-- A watchdog that also preserves a cleared fault (for C3's witness). -/
def wdC3h : WDState := ⟨2, false, 0, 0, true, false, 0, 0, 0⟩

/-- A full queue of bound 2 (for C4). -/
def mqC4full : MQState := ⟨["a", "b"], 2, false, none, 0, 0, 0, 0, []⟩

/-- A queue of bound 2 with room left (for C4). -/
def mqC4room : MQState := ⟨["a"], 2, false, none, 0, 0, 0, 0, []⟩

/-- An idle queue with one pending command (for C5). -/
def mqC5 : MQState := ⟨["m1"], 100, false, none, 0, 0, 0, 0, []⟩

/-- A busy queue (for C5). -/
def mqC5busy : MQState := ⟨["m1"], 100, true, some "m0", 0, 1, 0, 0, ["m0"]⟩

/-- A healthy watchdog, heartbeat monitoring on, both timers at 0 (for C6). -/
def wdC6 : WDState := ⟨1, true, 0, 0, true, false, 0, 0, 0⟩

/-- A watchdog already faulted (for C6). -/
def wdC6f : WDState := ⟨1, true, 0, 0, true, true, 0, 1, 0⟩

/-- A watchdog whose response timer is fresh but whose heartbeat timer is
stale (for C6's heartbeat-only path). -/
def wdC6hb : WDState := ⟨1, true, 1, 0, true, false, 0, 0, 0⟩

/-- A busy queue with four pending commands (for C7). -/
def mqC7 : MQState := ⟨["c1", "c2", "c3", "c4"], 100, true, some "c0", 0, 1, 0, 0, ["c0"]⟩

/-- A connected orchestrator with four commands queued (for C7). -/
def orchC7 : OrchState := ⟨true, mqC7, [], 1000⟩

/-- A mid-mutation queue state (for C9: the lock is held by the mutator). -/
def mqC9 : MQState := ⟨["m1"], 100, true, some "m0", 0, 1, 0, 0, ["m0"]⟩

/-- A quiet watchdog state (for C9). -/
def wdC9 : WDState := ⟨2, false, 0, 0, true, false, 5, 0, 0⟩

/-- An idle queue with one pending command (for C10). -/
def mqC10 : MQState := ⟨["a"], 100, false, none, 0, 0, 0, 0, []⟩

/-- A connected orchestrator with one prior log entry (for C10). -/
def orchC10 : OrchState := ⟨true, mqC10, [(0, "old", false)], 1000⟩

/- Helper lemmas about the lock model. -/

theorem withLock_false {σ α : Type} (s : σ) (body : σ → σ × Option α) :
    withLock false s body = body s := rfl

theorem withLock_true {σ α : Type} (s : σ) (body : σ → σ × Option α) :
    withLock true s body = (s, none) := rfl

/- The MotionQueue busy/current invariant is inductive. -/

theorem MotionQueue.step_preserves_inv (op : MotionQueue.Op) (s : MQState)
    (h : MotionQueue.inv s) : MotionQueue.inv (MotionQueue.step op s).1 := by
  cases op with
  | add cmd =>
      simp only [MotionQueue.step, MotionQueue.add, withLock_false]
      split_ifs <;> simpa [MotionQueue.inv] using h
  | update ok now =>
      simp only [MotionQueue.step, MotionQueue.update, withLock_false]
      by_cases hb : s.busy
      · simpa [MotionQueue.inv, hb] using h
      · cases hq : s.queue with
        | nil => simpa [MotionQueue.inv, hb, hq] using h
        | cons c rest =>
            by_cases hok : ok
            · simp [MotionQueue.inv, hb, hq, hok]
            · simpa [MotionQueue.inv, hb, hq, hok] using h
  | on_done =>
      simp only [MotionQueue.step, MotionQueue.on_done, withLock_false]
      split_ifs with hb
      · simp [MotionQueue.inv]
      · simpa [MotionQueue.inv] using h
  | clear =>
      simpa [MotionQueue.step, MotionQueue.clear, withLock_false,
             MotionQueue.inv] using h
  | emergency_stop =>
      simpa [MotionQueue.step, MotionQueue.emergency_stop, MotionQueue.clear,
             withLock_false, withLock_true, MotionQueue.inv] using h

theorem MotionQueue.run_preserves_inv (ops : List MotionQueue.Op) (s : MQState)
    (h : MotionQueue.inv s) : MotionQueue.inv (MotionQueue.run ops s) := by
  induction ops generalizing s with
  | nil => simpa [MotionQueue.run] using h
  | cons op rest ih =>
      simp only [MotionQueue.run]
      split_ifs
      · exact ih _ (MotionQueue.step_preserves_inv op s h)
      · exact MotionQueue.step_preserves_inv op s h

/-- C1: the MotionQueue invariant `current_command != None` iff `busy` holds
in the initial state and is preserved by every operation (add, update,
on_done, clear, emergency_stop), hence along every sequence of operations
from the initial state. -/
theorem c1_busy_iff_current_command :
    (∀ m, MotionQueue.inv (MotionQueue.initState m)) ∧
    (∀ op s, MotionQueue.inv s → MotionQueue.inv (MotionQueue.step op s).1) ∧
    (∀ m ops, MotionQueue.inv (MotionQueue.run ops (MotionQueue.initState m))) := by
  refine ⟨fun m => by simp [MotionQueue.inv, MotionQueue.initState],
          fun op s h => MotionQueue.step_preserves_inv op s h,
          fun m ops => MotionQueue.run_preserves_inv ops _
            (by simp [MotionQueue.inv, MotionQueue.initState])⟩

/-- Witness for C1 at a concrete state and operation. -/
theorem c1_busy_iff_current_command_witness :
    MotionQueue.inv (MotionQueue.initState 5) ∧
    MotionQueue.inv
      (MotionQueue.step (MotionQueue.Op.add "c") (MotionQueue.initState 5)).1 :=
  ⟨by decide,
   c1_busy_iff_current_command.2.1 (MotionQueue.Op.add "c")
     (MotionQueue.initState 5) (by decide)⟩

/-- C2: the claim says `emergency_stop()` hard-resets the queue (empty,
busy=false, a stop frame sent) and is idempotent.  On the code it is not: it
acquires `self.lock` and then calls `self.clear()`, which re-acquires the
same non-reentrant lock, so every call blocks forever with the state
unchanged — here a two-command busy queue stays length 2, stays busy, and no
`"$STOP$"` frame is ever handed to the link layer. -/
theorem c2_emergency_stop_blocks_forever :
    (∀ s, MotionQueue.emergency_stop false s = (s, none)) ∧
    (MotionQueue.emergency_stop false mqC2).1.queue.length = 2 ∧
    (MotionQueue.emergency_stop false mqC2).1.busy = true ∧
    (MotionQueue.emergency_stop false mqC2).1.tx = ["$MOVE0$"] :=
  ⟨fun s => rfl, rfl, rfl, rfl⟩

/-- C4: a full queue rejects `add` (returns false, bumps the dropped
counter, leaves queue/busy/current unchanged); a non-full queue accepts it
(returns true, appends at the tail, length grows by one). -/
theorem c4_add_respects_bound (s : MQState) (cmd : String) :
    (s.queue.length ≥ s.max_size →
      (MotionQueue.add false cmd s).2 = some false ∧
      (MotionQueue.add false cmd s).1.commands_dropped = s.commands_dropped + 1 ∧
      (MotionQueue.add false cmd s).1.queue = s.queue ∧
      (MotionQueue.add false cmd s).1.busy = s.busy ∧
      (MotionQueue.add false cmd s).1.current_command = s.current_command) ∧
    (s.queue.length < s.max_size →
      (MotionQueue.add false cmd s).2 = some true ∧
      (MotionQueue.add false cmd s).1.queue = s.queue ++ [cmd] ∧
      (MotionQueue.add false cmd s).1.queue.length = s.queue.length + 1) := by
  constructor
  · intro h
    simp [MotionQueue.add, withLock_false, h]
  · intro h
    simp [MotionQueue.add, withLock_false, not_le.mpr h]

/-- Witness for C4 at a full and at a non-full concrete queue. -/
theorem c4_add_respects_bound_witness :
    ((MotionQueue.add false "c" mqC4full).2 = some false ∧
     (MotionQueue.add false "c" mqC4full).1.queue = mqC4full.queue) ∧
    ((MotionQueue.add false "c" mqC4room).2 = some true ∧
     (MotionQueue.add false "c" mqC4room).1.queue = mqC4room.queue ++ ["c"]) :=
  ⟨⟨((c4_add_respects_bound mqC4full "c").1 (by decide)).1,
    ((c4_add_respects_bound mqC4full "c").1 (by decide)).2.2.1⟩,
   ⟨((c4_add_respects_bound mqC4room "c").2 (by decide)).1,
    ((c4_add_respects_bound mqC4room "c").2 (by decide)).2.1⟩⟩

/-- C5: `update()` is a no-op when busy or empty; otherwise it pops the head
and calls the link-layer send.  On success it sets busy, records the command
and its start time and bumps the sent counter; on failure it re-inserts the
command at the head, leaving the queue contents and busy as before the call
(only the transmission trace records the attempted send). -/
theorem c5_update_send_retry (s : MQState) (ok : Bool) (now : ℚ) :
    (s.busy = true → MotionQueue.update false ok now s = (s, some ())) ∧
    (s.queue = [] → MotionQueue.update false ok now s = (s, some ())) ∧
    (∀ c rest, s.busy = false → s.queue = c :: rest → ok = true →
      MotionQueue.update false ok now s =
        ({ s with queue := rest, tx := s.tx ++ [c], busy := true,
                  current_command := some c, command_start_time := now,
                  commands_sent := s.commands_sent + 1 }, some ())) ∧
    (∀ c rest, s.busy = false → s.queue = c :: rest → ok = false →
      MotionQueue.update false ok now s = ({ s with tx := s.tx ++ [c] }, some ()) ∧
      (MotionQueue.update false ok now s).1.queue = s.queue ∧
      (MotionQueue.update false ok now s).1.busy = false ∧
      (MotionQueue.update false ok now s).1.current_command = s.current_command) := by
  refine ⟨fun hb => ?_, fun hq => ?_, fun c rest hb hq hok => ?_,
          fun c rest hb hq hok => ?_⟩
  · simp [MotionQueue.update, withLock_false, hb]
  · by_cases hb : s.busy
    · simp [MotionQueue.update, withLock_false, hb]
    · simp [MotionQueue.update, withLock_false, hb, hq]
  · subst hok
    simp [MotionQueue.update, withLock_false, hb, hq]
  · subst hok
    have he : MotionQueue.update false false now s =
        ({ s with tx := s.tx ++ [c] }, some ()) := by
      simp [MotionQueue.update, withLock_false, hb, hq]
    exact ⟨he, by rw [he, hq], by rw [he]; exact hb, by rw [he]⟩

/-- Witness for C5 at concrete states: busy no-op, empty no-op, successful
send, failed send. -/
theorem c5_update_send_retry_witness :
    MotionQueue.update false true 1 mqC5busy = (mqC5busy, some ()) ∧
    MotionQueue.update false true 1 (MotionQueue.initState 3) =
      (MotionQueue.initState 3, some ()) ∧
    MotionQueue.update false true 1 mqC5 =
      ({ mqC5 with queue := [], tx := mqC5.tx ++ ["m1"], busy := true,
                   current_command := some "m1", command_start_time := 1,
                   commands_sent := mqC5.commands_sent + 1 }, some ()) ∧
    MotionQueue.update false false 1 mqC5 =
      ({ mqC5 with tx := mqC5.tx ++ ["m1"] }, some ()) :=
  ⟨(c5_update_send_retry mqC5busy true 1).1 (by decide),
   (c5_update_send_retry (MotionQueue.initState 3) true 1).2.1 (by decide),
   (c5_update_send_retry mqC5 true 1).2.2.1 "m1" [] (by decide) (by decide) rfl,
   ((c5_update_send_retry mqC5 false 1).2.2.2 "m1" [] (by decide) (by decide) rfl).1⟩


/-- C3 counterexample: `reset()` is not `kick()`, yet it clears a standing
fault — at `wdC3` (faulted) a `reset` leaves `fault_detected = false`. -/
theorem c3_reset_clears_fault_counterexample :
    wdC3.fault_detected = true ∧
    Watchdog.Op.isKick (Watchdog.Op.reset 5) = false ∧
    (Watchdog.step (Watchdog.Op.reset 5) wdC3).fault_detected = false :=
  ⟨rfl, rfl, rfl⟩

/-- C3 (amended): `fault_detected` becomes true only inside `check()`, and
once true it is cleared only by `kick()` or `reset()`: every operation other
than kick and reset preserves a standing fault (heartbeat included — its
embedded kick blocks on the re-acquired non-reentrant lock and never runs),
and every operation other than check preserves a clear fault. -/
theorem c3_fault_only_set_in_check_cleared_by_kick_or_reset
    (op : Watchdog.Op) (s : WDState) :
    (op.isKick = false → op.isReset = false → s.fault_detected = true →
      (Watchdog.step op s).fault_detected = true) ∧
    (op.isCheck = false → s.fault_detected = false →
      (Watchdog.step op s).fault_detected = false) := by
  cases op <;>
    simp [Watchdog.step, Watchdog.Op.isKick, Watchdog.Op.isReset,
          Watchdog.Op.isCheck, Watchdog.kick, Watchdog.heartbeat,
          Watchdog.check, Watchdog.reset, Watchdog.enable, Watchdog.disable,
          Watchdog.set_timeout, Watchdog.is_healthy, Watchdog.get_stats,
          withLock_false, withLock_true] <;>
    split_ifs <;> simp_all

/-- Witness for C3's amended theorem: `disable` preserves a standing fault
and `kick` preserves a clear one. -/
theorem c3_fault_only_set_in_check_witness :
    (Watchdog.step Watchdog.Op.disable wdC3).fault_detected = true ∧
    (Watchdog.step (Watchdog.Op.kick 1) wdC3h).fault_detected = false :=
  ⟨(c3_fault_only_set_in_check_cleared_by_kick_or_reset Watchdog.Op.disable
      wdC3).1 (by decide) (by decide) (by decide),
   (c3_fault_only_set_in_check_cleared_by_kick_or_reset (Watchdog.Op.kick 1)
      wdC3h).2 (by decide) (by decide)⟩

/-- C6: `check()` fires at most one fault transition per call and never
re-fires while faulted: the timeout callback runs at most once per call; an
already-faulted watchdog is left untouched (no callback, no counter bump, no
state change); and when breached and not yet faulted — by the response path,
or by the heartbeat path alone — the flag flips to true, the counter bumps
once, and the callback runs exactly once. -/
theorem c6_check_fires_at_most_once (s : WDState) (now : ℚ) :
    (∀ o n, (Watchdog.check false now s).2 = some (o, n) → n ≤ 1) ∧
    (s.fault_detected = true →
      Watchdog.check false now s = (s, some (CheckOutcome.ok, 0))) ∧
    (s.enabled = true → s.fault_detected = false →
      now - s.last_response > s.timeout →
      Watchdog.check false now s =
        ({ s with fault_detected := true,
                  timeout_count := s.timeout_count + 1 },
         some (CheckOutcome.raised, 1))) ∧
    (s.enabled = true → s.fault_detected = false →
      s.enable_heartbeat = true → ¬(now - s.last_response > s.timeout) →
      now - s.last_heartbeat > s.timeout * (3 / 2) →
      Watchdog.check false now s =
        ({ s with fault_detected := true,
                  timeout_count := s.timeout_count + 1 },
         some (CheckOutcome.raised, 1))) := by
  refine ⟨?_, ?_, ?_, ?_⟩
  · intro o n h
    by_cases he : s.enabled
    · simp only [Watchdog.check, he, if_true, withLock_false] at h
      split_ifs at h <;>
        (simp only [Option.some.injEq, Prod.mk.injEq] at h
         obtain ⟨-, h2⟩ := h
         omega)
    · simp [Watchdog.check, he] at h
      rcases h with ⟨-, h2⟩
      omega
  · intro hf
    by_cases he : s.enabled <;>
      simp [Watchdog.check, he, withLock_false, hf]
  · intro he hf hr
    simp [Watchdog.check, he, withLock_false, hf, hr]
  · intro he hf hhb hr hb
    simp [Watchdog.check, he, withLock_false, hf, hhb, hr, hb]

/-- Witness for C6 at concrete states: a response-timeout fire, a
heartbeat-only fire, a faulted no-op, and the at-most-once bound. -/
theorem c6_check_fires_at_most_once_witness :
    (1 : Nat) ≤ 1 ∧
    Watchdog.check false 2 wdC6f = (wdC6f, some (CheckOutcome.ok, 0)) ∧
    Watchdog.check false (8 / 5) wdC6 =
      ({ wdC6 with fault_detected := true,
                   timeout_count := wdC6.timeout_count + 1 },
       some (CheckOutcome.raised, 1)) ∧
    Watchdog.check false (8 / 5) wdC6hb =
      ({ wdC6hb with fault_detected := true,
                     timeout_count := wdC6hb.timeout_count + 1 },
       some (CheckOutcome.raised, 1)) := by
  have h3 := (c6_check_fires_at_most_once wdC6 (8 / 5)).2.2.1 rfl rfl
    (by norm_num [wdC6])
  have h4 := (c6_check_fires_at_most_once wdC6hb (8 / 5)).2.2.2 rfl rfl rfl
    (by norm_num [wdC6hb]) (by norm_num [wdC6hb])
  exact ⟨(c6_check_fires_at_most_once wdC6 (8 / 5)).1 CheckOutcome.raised 1
           (by rw [h3]),
         (c6_check_fires_at_most_once wdC6f 2).2.1 rfl, h3, h4⟩

/-- C7: the claim says a priority send on a connected orchestrator clears the
queue (length 0), resets busy=false and transmits a stop frame.  On the code
`send_command(cmd, priority=True)` calls `MotionQueue.emergency_stop()`,
which blocks forever re-acquiring its own non-reentrant lock inside
`clear()`: with four commands queued the call never returns, the queue still
holds 4 commands, busy is still true, and no `"$STOP$"` frame is handed to
the link layer. -/
theorem c7_priority_send_blocks_without_clearing :
    ESP32Communicator.send_command 0 "$STOP$" true orchC7 = (orchC7, none) ∧
    (ESP32Communicator.send_command 0 "$STOP$" true orchC7).1.mq.queue.length = 4 ∧
    (ESP32Communicator.send_command 0 "$STOP$" true orchC7).1.mq.busy = true ∧
    (ESP32Communicator.send_command 0 "$STOP$" true orchC7).1.mq.tx = ["c0"] :=
  ⟨rfl, rfl, rfl, rfl⟩

/-- C8 counterexample: the inbound line exactly `"FAULT:"` is dispatched as
a fault whose reason is the empty string, not `"UNKNOWN"` — the line
contains a colon, so the `"UNKNOWN"` default branch is not taken. -/
theorem c8_empty_remainder_reason_counterexample :
    ESP32Serial.handle_message "FAULT:".toList = LinkEvent.fault [] ∧
    ([] : List Char) ≠ "UNKNOWN".toList := by
  constructor
  · decide
  · decide

/-- C8 (amended): every inbound line with prefix `"FAULT:"` dispatches a
fault event whose reason is exactly the remainder after the prefix (the part
after the first colon); when that remainder is empty the reason is the empty
string — the `"UNKNOWN"` default is unreachable for such lines, since they
always contain a colon. -/
theorem c8_fault_reason_is_remainder (msg : List Char)
    (h : ("FAULT:".toList).isPrefixOf msg = true) :
    ESP32Serial.handle_message msg = LinkEvent.fault (msg.drop 6) := by
  obtain ⟨rest, rfl⟩ := List.isPrefixOf_iff_prefix.mp h
  have hdrop : ("FAULT:".toList ++ rest).drop 6 = rest :=
    List.drop_left' (by decide)
  have e : "FAULT:".toList = 'F' :: 'A' :: 'U' :: 'L' :: 'T' :: ':' :: [] := by
    decide
  have n1 : ¬("FAULT:".toList ++ rest = "ACK:MOVE".toList) := by
    intro hc; injection hc with h1 _; exact absurd h1 (by decide)
  have n2 : ¬("FAULT:".toList ++ rest = "DONE:MOVE".toList) := by
    intro hc; injection hc with h1 _; exact absurd h1 (by decide)
  have n3 : ¬("FAULT:".toList ++ rest = "ACK:STOP".toList) := by
    intro hc; injection hc with h1 _; exact absurd h1 (by decide)
  have hp : ("FAULT:".toList).isPrefixOf ("FAULT:".toList ++ rest) = true :=
    List.isPrefixOf_iff_prefix.mpr ⟨rest, rfl⟩
  have hafter : ESP32Serial.afterFirstColon ("FAULT:".toList ++ rest) =
      some rest := by
    rw [e]
    simp [ESP32Serial.afterFirstColon]
  have hreason : ESP32Serial.faultReason ("FAULT:".toList ++ rest) = rest := by
    unfold ESP32Serial.faultReason
    rw [hafter]
  rw [hdrop, ESP32Serial.handle_message, if_neg n1, if_neg n2, if_neg n3,
      if_pos hp, hreason]

/-- Witness for C8's amended theorem on the concrete line `"FAULT:LIMIT"`. -/
theorem c8_fault_reason_is_remainder_witness :
    ESP32Serial.handle_message "FAULT:LIMIT".toList =
      LinkEvent.fault ("FAULT:LIMIT".toList.drop 6) :=
  c8_fault_reason_is_remainder "FAULT:LIMIT".toList (by decide)

/-- C9 counterexample: with the queue component's lock already held by a
concurrent mutator (`held = true`), `MotionQueue.get_stats` still completes
and returns the composite read — it does not acquire the component's lock,
so the claimed torn-read protection does not exist for this reader. -/
theorem c9_motion_queue_stats_reads_unlocked :
    (MotionQueue.get_stats true mqC9).2 =
      some ⟨1, true, 1, 0, 0, some "m0"⟩ := rfl

/-- C9 (amended): the two composite readers behave asymmetrically.
`MotionQueue.get_stats` never interacts with the lock: whether or not the
lock is held it completes immediately with the composite read (so it is not
mutually excluded from mutators).  `Watchdog.get_stats` does take its lock —
and then blocks forever, because building the stats calls `is_healthy()`,
which re-acquires the same non-reentrant lock; it never returns a value. -/
theorem c9_composite_reads_and_locks (held : Bool) (s : MQState) (now : ℚ)
    (w : WDState) :
    (MotionQueue.get_stats held s).2.isSome = true ∧
    (MotionQueue.get_stats held s).1 = s ∧
    (Watchdog.get_stats held now w).2 = none ∧
    (Watchdog.get_stats held now w).1 = w := by
  refine ⟨rfl, rfl, ?_, ?_⟩ <;> cases held <;> rfl

/-- C10 counterexample: on a connected orchestrator the priority path does
not return true and does not append a `sent=true` audit entry — it blocks
forever inside `MotionQueue.emergency_stop` (result `none`), the audit log
is unchanged, and nothing at all is handed to the transport. -/
theorem c10_priority_path_logs_nothing :
    (ESP32Communicator.send_command 1 "cmdX" true orchC10).2 = none ∧
    (ESP32Communicator.send_command 1 "cmdX" true orchC10).1.command_log =
      [(0, "old", false)] ∧
    (ESP32Communicator.send_command 1 "cmdX" true orchC10).1.mq.tx = [] :=
  ⟨rfl, rfl, rfl⟩

/-- C10 (amended): on the priority path while connected, `send_command`
never returns (it blocks in `MotionQueue.emergency_stop`), so no audit entry
is appended and nothing — neither `cmd` nor the stop frame — is transmitted;
in particular no link-layer send result is ever consulted.  On the
non-priority path a successfully queued command is logged with `sent=false`,
and the queue-processing tick that later transmits it never touches the
audit log, so that entry is never updated. -/
theorem c10_audit_log_semantics (s : OrchState) (cmd : String) (now : ℚ)
    (ok : Bool) :
    (s.is_connected = true →
      (ESP32Communicator.send_command now cmd true s).2 = none ∧
      (ESP32Communicator.send_command now cmd true s).1.command_log =
        s.command_log ∧
      (ESP32Communicator.send_command now cmd true s).1.mq.tx = s.mq.tx) ∧
    (s.is_connected = true → s.mq.queue.length < s.mq.max_size →
      s.command_log.length < s.max_log_size →
      (ESP32Communicator.send_command now cmd false s).2 = some true ∧
      (ESP32Communicator.send_command now cmd false s).1.command_log =
        s.command_log ++ [(now, cmd, false)]) ∧
    (ESP32Communicator.update_worker_tick ok now s).command_log =
      s.command_log := by
  obtain ⟨conn, mq, log, maxs⟩ := s
  refine ⟨fun h => ?_, fun h hq hl => ?_, rfl⟩
  · cases h
    exact ⟨rfl, rfl, rfl⟩
  · cases h
    have hq2 : mq.queue.length < mq.max_size := hq
    have hl2 : log.length < maxs := hl
    have hadd : MotionQueue.add false cmd mq =
        ({ mq with queue := mq.queue ++ [cmd] }, some true) := by
      simp [MotionQueue.add, withLock_false, not_le.mpr hq2]
    have hlen : ¬ maxs < log.length + 1 := by omega
    constructor
    · simp [ESP32Communicator.send_command, hadd]
    · simp [ESP32Communicator.send_command, hadd,
            ESP32Communicator.log_command, hlen]

/-- Witness for C10's amended theorem at a concrete connected orchestrator:
the priority path hangs with the log untouched, and a successful
non-priority queueing appends a `sent=false` entry. -/
theorem c10_audit_log_semantics_witness :
    (ESP32Communicator.send_command 1 "cmdX" true orchC10).2 = none ∧
    (ESP32Communicator.send_command 2 "cmdY" false orchC10).1.command_log =
      orchC10.command_log ++ [(2, "cmdY", false)] :=
  ⟨((c10_audit_log_semantics orchC10 "cmdX" 1 true).1 rfl).1,
   ((c10_audit_log_semantics orchC10 "cmdY" 2 true).2.1 rfl (by decide)
      (by decide)).2⟩
